import Mathlib

/-!
Verification of MeetingVirtualBackground.py (virtual-bg repository).

The per-frame compositing pipeline is shallowly embedded: images are total
pixel functions, the segmentation mask is a per-pixel rational probability,
and the external OpenCV operations whose internals are floating-point library
code (resize, GaussianBlur) are passed in as function parameters, exactly as
the source calls them.  Everything the source itself computes (the erosion,
the threshold, the branch structure of apply_effects, the state mutators,
the background loader, and the control flow of gen_frames) is translated
directly from the source.
-/

namespace VirtualBG

/-- An image: pixel value at (row, column, channel).  The source uses uint8
BGR ndarrays; claims only select pixels, never do arithmetic on them, so a
Nat-valued total function is a faithful model. -/
def Img : Type := Nat → Nat → Nat → Nat

/-- A segmentation mask: per-pixel foreground probability in [0,1],
single channel (MediaPipe `segmentation_mask`). -/
def Mask : Type := Nat → Nat → ℚ

/-- A compositing condition: per-pixel, per-channel boolean
(the source builds a 3-channel boolean array). -/
def Cond : Type := Nat → Nat → Nat → Bool

/-- `np.where(condition, a, b)`: elementwise selection. -/
def npWhere (c : Cond) (a b : Img) : Img :=
  fun y x ch => if c y x ch then a y x ch else b y x ch

/-- BLUR_KERNEL_SIZE = (55, 55)  (line 19 of the source). -/
def BLUR_KERNEL_SIZE : Nat × Nat := (55, 55)

/-- SEGMENTATION_THRESHOLD = 0.1  (line 20 of the source). -/
def SEGMENTATION_THRESHOLD : ℚ := 1 / 10

/-- NUM_BACKGROUNDS = 6  (line 18 of the source). -/
def NUM_BACKGROUNDS : Nat := 6

/-- The 7x7 all-ones structuring element of `np.ones((7, 7))`, as the list of
its offsets from the anchor (the kernel center, OpenCV default). -/
def kernelOffsets : List (Int × Int) :=
  (List.range 7).flatMap (fun i => (List.range 7).map (fun j => ((i : Int) - 3, (j : Int) - 3)))

/-- `cv2.erode(mask, np.ones((7,7)), iterations=1)` at an in-bounds pixel:
the minimum of the mask over the in-bounds part of the 7x7 window centered at
the pixel.  (cv2.erode uses a constant +infinity border for erosion, so
out-of-bounds neighbours do not affect the minimum; the window always
contains the center pixel, used here as the fold seed.) -/
def erode (mask : Mask) (h w : Nat) (y x : Nat) : ℚ :=
  (kernelOffsets.filterMap (fun p =>
    let y2 : Int := (y : Int) + p.1
    let x2 : Int := (x : Int) + p.2
    if 0 ≤ y2 ∧ y2 < (h : Int) ∧ 0 ≤ x2 ∧ x2 < (w : Int)
    then some (mask y2.toNat x2.toNat) else none)).foldl min (mask y x)

/-- `condition = np.stack((mask,)*3, axis=-1) > SEGMENTATION_THRESHOLD`
(line 201): the eroded single-channel mask broadcast to 3 channels and
thresholded strictly. -/
def makeCondition (mask : Mask) (h w : Nat) : Cond :=
  fun y x _ch => decide (SEGMENTATION_THRESHOLD < erode mask h w y x)

/-- `apply_effects` (lines 181-227 of the source).  `resize` and
`gaussianBlur` stand for cv2.resize and cv2.GaussianBlur, which the source
calls as external library functions; `resize bg w h` models
`cv2.resize(bg, (image.shape[1], image.shape[0]))` and
`gaussianBlur BLUR_KERNEL_SIZE 0 img` models
`cv2.GaussianBlur(img, BLUR_KERNEL_SIZE, 0)`.  The branch structure, the
bound check on `selected_bg_index`, the erosion and threshold, and the
`np.where` composites are translated from the source. -/
def apply_effects (resize : Img → Nat → Nat → Img)
    (gaussianBlur : Nat × Nat → ℚ → Img → Img)
    (selected_bg_index : Int) (background_images : List Img) (apply_blur : Bool)
    (image : Img) (mask : Mask) (h w : Nat) : Img :=
  let condition := makeCondition mask h w
  if hv : 0 ≤ selected_bg_index ∧ selected_bg_index < (background_images.length : Int) then
    let bg0 := background_images.get ⟨selected_bg_index.toNat, by omega⟩
    let bg1 := resize bg0 w h
    let bg2 := if apply_blur then gaussianBlur BLUR_KERNEL_SIZE 0 bg1 else bg1
    npWhere condition image bg2
  else
    if apply_blur then npWhere condition image (gaussianBlur BLUR_KERNEL_SIZE 0 image)
    else image

/-- The process-wide session state: `selected_bg_index` (line 23) and
`apply_blur` (line 24). -/
structure AppState where
  selected_bg_index : Int
  apply_blur : Bool
deriving DecidableEq, Repr

/-- The three outcomes of the `/set_background/<bg_index>` handler:
success echoing the accepted index, the 400 "Invalid index format" response,
and the 400 "Invalid index" (range) response. -/
inductive SBResult where
  | success (selected_index : Int)
  | formatError
  | rangeError
deriving DecidableEq, Repr

/-- `set_background` (lines 94-117).  The route argument is a string which
the source passes through `int(...)` inside try/except ValueError; the parse
result is modelled as `Option Int` (`none` = ValueError).  `bgCount` is
`len(background_images)`. -/
def set_background (input : Option Int) (bgCount : Nat) (s : AppState) :
    AppState × SBResult :=
  match input with
  | none => (s, SBResult.formatError)
  | some bg_index =>
    if bg_index = -1 ∨ (0 ≤ bg_index ∧ bg_index < (bgCount : Int)) then
      ({ s with selected_bg_index := bg_index }, SBResult.success bg_index)
    else
      (s, SBResult.rangeError)

/-- The state-mutating control operations: the `/` route (lines 83-91,
resets both fields), `/set_background` (lines 94-117), and `/toggle_blur`
(lines 120-133, `apply_blur = bool(state)` for an int route argument). -/
inductive Op where
  | reset
  | setBg (input : Option Int)
  | toggleBlur (state : Int)

/-- One control operation applied to the session state, as the source's
route handlers mutate the globals. -/
def stepOp (bgCount : Nat) (s : AppState) : Op → AppState
  | Op.reset => ⟨-1, false⟩
  | Op.setBg input => (set_background input bgCount s).1
  | Op.toggleBlur n => { s with apply_blur := n ≠ 0 }

/-- The invariant claimed of `selected_bg_index`: -1 or a valid index. -/
def validIndex (bgCount : Nat) (i : Int) : Prop :=
  i = -1 ∨ (0 ≤ i ∧ i < (bgCount : Int))

/-- Control-flow model of `gen_frames` (lines 136-178) restricted to the
camera-release question.  First argument: the sequence of
`success` values returned by `cap.read()` before the camera reports closed
(an empty remainder models `cap.isOpened()` turning false).  Second
argument: `some k` means the client closes the connection while the
generator is suspended at the yield of its k-th emitted frame, which raises
GeneratorExit at line 175; `none` means the client never disconnects.
Result: how many times `cap.release()` (line 178) runs.  Line 178 sits
after the `with` block in straight-line code, not in a try/finally, so it
runs when the while loop exits normally (capture failure `break` at line
151, or `isOpened` false) and is skipped when GeneratorExit propagates out
of the generator. -/
def gen_frames_release : List Bool → Option Nat → Nat
  | [], _ => 1
  | false :: _, _ => 1
  | true :: rest, none => gen_frames_release rest none
  | true :: rest, some k =>
      if k ≤ 1 then 0 else gen_frames_release rest (some (k - 1))

/-- Per-frame results of the external calls made inside the `gen_frames`
loop body: `cap.read()` (none = failure), `selfie_segmentation.process`
(`Except.error` = a raised exception), and `cv2.imencode` (`Except.error`
= a raised exception, otherwise the `(ret, buffer)` pair the source
destructures at line 171). -/
structure FrameInputs where
  capture : Option Nat
  segmentation : Except Unit Nat
  encode : Except Unit (Bool × List Nat)

/-- Emission model of `gen_frames` (lines 136-178): runs the loop over the
per-frame external results and returns the list of emitted frame buffers
(the multipart framing around each buffer is constant and omitted) together
with whether the generator terminated by a propagating exception.  Faithful
to the source: a raised exception from segmentation or encode propagates
(there is no try/except in `gen_frames`), while the `ret` flag returned by
`cv2.imencode` is never inspected — `buffer.tobytes()` is yielded
regardless (lines 171-176). -/
def run_gen_frames : List FrameInputs → List (List Nat) × Bool
  | [] => ([], false)
  | s :: rest =>
    match s.capture with
    | none => ([], false)
    | some _ =>
      match s.segmentation with
      | Except.error _ => ([], true)
      | Except.ok _ =>
        match s.encode with
        | Except.error _ => ([], true)
        | Except.ok (_ret, buffer) =>
          let r := run_gen_frames rest
          (buffer :: r.1, r.2)

/-- The state of the backing file for one background slot: absent, present
but undecodable, or present and decodable to an image (images abstracted to
Nat tokens for this component). -/
inductive FileStatus where
  | missing
  | corrupt
  | decodable (img : Nat)
deriving DecidableEq

/-- `os.path.exists(img_path)` (line 48). -/
def fileExists : FileStatus → Bool
  | FileStatus.missing => false
  | _ => true

/-- `cv2.imread(img_path)` (line 49): returns the decoded image, or None
(modelled as `none`) when the file cannot be decoded. -/
def imread : FileStatus → Option Nat
  | FileStatus.decodable img => some img
  | _ => none

/-- `load_backgrounds` (lines 31-54): for i in 1..count, append
`cv2.imread(path_i)` when the file exists, else append the generated
placeholder.  `placeholder` stands for `create_placeholder_background`;
`fs i` is the file state of `{i}.png`.  Entries are `Option Nat` because
the source appends `cv2.imread`'s result unchecked, which is None for an
undecodable file. -/
def load_backgrounds (placeholder : Nat → Nat) (fs : Nat → FileStatus)
    (count : Nat) : List (Option Nat) :=
  (List.range' 1 count).map (fun i =>
    if fileExists (fs i) then imread (fs i)
    else some (placeholder i))

/-- What each slot of `load_backgrounds` holds, by file state. -/
def loadedSlot (placeholder : Nat → Nat) (st : FileStatus) (i : Nat) :
    Option Nat :=
  match st with
  | FileStatus.missing => some (placeholder i)
  | FileStatus.corrupt => none
  | FileStatus.decodable img => some img

/-- A constant image, used to instantiate theorems at concrete inputs. -/
def constImg (v : Nat) : Img := fun _ _ _ => v

/-- The identity stand-in for cv2.resize at concrete instantiations. -/
def idResize : Img → Nat → Nat → Img := fun i _ _ => i

/-- The identity stand-in for cv2.GaussianBlur at concrete instantiations. -/
def idBlur : Nat × Nat → ℚ → Img → Img := fun _ _ i => i

/-! ## Theorems -/

/-- Folding `min` over a list of copies of `c`, starting from `c`, gives `c`. -/
theorem foldl_min_const (c : ℚ) : ∀ l : List ℚ, (∀ a ∈ l, a = c) → l.foldl min c = c
  | [], _ => rfl
  | b :: l, hl => by
    have hb : b = c := hl b (List.mem_cons_self b l)
    rw [List.foldl_cons, hb, min_self]
    exact foldl_min_const c l (fun a ha => hl a (List.mem_cons_of_mem _ ha))

/-- Eroding a constant mask gives the constant back at every pixel. -/
theorem erode_const (q : ℚ) (mask : Mask) (hmask : ∀ a b, mask a b = q)
    (h w y x : Nat) : erode mask h w y x = q := by
  unfold erode
  rw [hmask y x]
  apply foldl_min_const
  intro a ha
  rcases List.mem_filterMap.mp ha with ⟨p, _, hp⟩
  simp only at hp
  split at hp
  · rw [← Option.some_inj.mp hp]; exact hmask _ _
  · exact Option.noConfusion hp

/-- Claim C4: the compositing condition is the 7x7 erosion of the
probability mask, broadcast to 3 channels (so channel-independent) and
thresholded strictly at 0.1; an all-ones mask yields an all-true condition
and an all-zero mask an all-false condition. -/
theorem mask_processor_spec (mask : Mask) (h w : Nat) :
    (∀ y x ch, makeCondition mask h w y x ch =
        decide (SEGMENTATION_THRESHOLD < erode mask h w y x))
    ∧ (∀ y x ch ch2, makeCondition mask h w y x ch = makeCondition mask h w y x ch2)
    ∧ ((∀ a b, mask a b = 1) → ∀ y x ch, makeCondition mask h w y x ch = true)
    ∧ ((∀ a b, mask a b = 0) → ∀ y x ch, makeCondition mask h w y x ch = false) := by
  refine ⟨fun _ _ _ => rfl, fun _ _ _ _ => rfl, ?_, ?_⟩
  · intro hm y x ch
    unfold makeCondition
    rw [erode_const 1 mask hm, decide_eq_true_iff]
    norm_num [SEGMENTATION_THRESHOLD]
  · intro hm y x ch
    unfold makeCondition
    rw [erode_const 0 mask hm, decide_eq_false_iff_not]
    norm_num [SEGMENTATION_THRESHOLD]

/-- Witness for C4: the all-ones and all-zero facts at a concrete pixel. -/
theorem mask_processor_spec_witness :
    makeCondition (fun _ _ => 1) 4 4 0 0 0 = true
    ∧ makeCondition (fun _ _ => 0) 4 4 0 0 0 = false :=
  ⟨(mask_processor_spec (fun _ _ => 1) 4 4).2.2.1 (fun _ _ => rfl) 0 0 0,
   (mask_processor_spec (fun _ _ => 0) 4 4).2.2.2 (fun _ _ => rfl) 0 0 0⟩

/-- Claim C1: with a valid non-negative background index, every
condition-true pixel of the output is the source-frame pixel (never
blurred, whatever the blur flag), and every condition-false pixel is the
pixel of the selected background resized to the frame's dimensions,
Gaussian-blurred (55x55 kernel, sigma 0) first exactly when blur is
enabled. -/
theorem policyA_spec (resize : Img → Nat → Nat → Img)
    (gaussianBlur : Nat × Nat → ℚ → Img → Img)
    (idx : Int) (bgs : List Img) (blur : Bool) (image : Img) (mask : Mask)
    (h w : Nat) (h0 : 0 ≤ idx) (h1 : idx < (bgs.length : Int)) :
    ∀ y x ch,
      apply_effects resize gaussianBlur idx bgs blur image mask h w y x ch =
        if makeCondition mask h w y x ch then image y x ch
        else
          (if blur then
             gaussianBlur BLUR_KERNEL_SIZE 0
               (resize (bgs.get ⟨idx.toNat, by omega⟩) w h)
           else resize (bgs.get ⟨idx.toNat, by omega⟩) w h) y x ch := by
  intro y x ch
  unfold apply_effects
  rw [dif_pos ⟨h0, h1⟩]
  rfl

/-- Witness for C1 at a concrete frame, mask and background list. -/
theorem policyA_spec_witness :
    0 ≤ (0 : Int) ∧ (0 : Int) < (([constImg 5] : List Img).length : Int) ∧
      apply_effects idResize idBlur 0 [constImg 5] false (constImg 7)
          (fun _ _ => 1) 2 2 0 0 0 =
        if makeCondition (fun _ _ => 1) 2 2 0 0 0 then constImg 7 0 0 0
        else
          (if false then
             idBlur BLUR_KERNEL_SIZE 0
               (idResize (([constImg 5] : List Img).get ⟨(0 : Int).toNat, by decide⟩) 2 2)
           else idResize (([constImg 5] : List Img).get ⟨(0 : Int).toNat, by decide⟩) 2 2)
          0 0 0 :=
  ⟨by decide, by decide,
   policyA_spec idResize idBlur 0 [constImg 5] false (constImg 7)
     (fun _ _ => 1) 2 2 (by decide) (by decide) 0 0 0⟩

/-- Claim C2: with background index -1 and blur enabled, every
condition-true pixel of the output is the source pixel and every
condition-false pixel is the pixel of the Gaussian-blurred (55x55 kernel)
source frame. -/
theorem policyB_spec (resize : Img → Nat → Nat → Img)
    (gaussianBlur : Nat × Nat → ℚ → Img → Img)
    (bgs : List Img) (image : Img) (mask : Mask) (h w : Nat) :
    ∀ y x ch,
      apply_effects resize gaussianBlur (-1) bgs true image mask h w y x ch =
        if makeCondition mask h w y x ch then image y x ch
        else gaussianBlur BLUR_KERNEL_SIZE 0 image y x ch := by
  intro y x ch
  unfold apply_effects
  rw [dif_neg (by omega)]
  simp [npWhere]

/-- Claim C3: with background index -1 and blur disabled, the compositor is
the identity on the frame, for every condition mask. -/
theorem policyC_identity (resize : Img → Nat → Nat → Img)
    (gaussianBlur : Nat × Nat → ℚ → Img → Img)
    (bgs : List Img) (image : Img) (mask : Mask) (h w : Nat) :
    apply_effects resize gaussianBlur (-1) bgs false image mask h w = image := by
  unfold apply_effects
  rw [dif_neg (by omega)]
  rfl

/-- Claim C10: for any background index that is not a valid index into the
collection (negative other than -1, or too large), the compositor performs
no access into the background list and falls through to the no-background
policies: blur when enabled, passthrough otherwise. -/
theorem compositor_bounds_fallthrough (resize : Img → Nat → Nat → Img)
    (gaussianBlur : Nat × Nat → ℚ → Img → Img)
    (idx : Int) (bgs : List Img) (blur : Bool) (image : Img) (mask : Mask)
    (h w : Nat) (hinv : ¬ (0 ≤ idx ∧ idx < (bgs.length : Int))) :
    apply_effects resize gaussianBlur idx bgs blur image mask h w =
      if blur then
        npWhere (makeCondition mask h w) image (gaussianBlur BLUR_KERNEL_SIZE 0 image)
      else image := by
  unfold apply_effects
  rw [dif_neg hinv]

/-- Witness for C10 at the out-of-range index 100 over a one-element
background collection. -/
theorem compositor_bounds_fallthrough_witness :
    ¬ (0 ≤ (100 : Int) ∧ (100 : Int) < (([constImg 5] : List Img).length : Int))
    ∧ apply_effects idResize idBlur 100 [constImg 5] false (constImg 7)
          (fun _ _ => 1) 2 2 =
        if false then
          npWhere (makeCondition (fun _ _ => 1) 2 2) (constImg 7)
            (idBlur BLUR_KERNEL_SIZE 0 (constImg 7))
        else constImg 7 :=
  ⟨by decide,
   compositor_bounds_fallthrough idResize idBlur 100 [constImg 5] false
     (constImg 7) (fun _ _ => 1) 2 2 (by decide)⟩

/-- Claim C5: set_background accepts exactly the integer inputs equal to -1
or in [0, background_count); acceptance updates the stored index to the
accepted value and reports success echoing it; a non-integer input yields
the format error, an out-of-range integer the range error, and in both
failure cases the state is unchanged. -/
theorem set_background_spec (bgCount : Nat) (s : AppState) :
    set_background none bgCount s = (s, SBResult.formatError)
    ∧ (∀ n : Int, (n = -1 ∨ (0 ≤ n ∧ n < (bgCount : Int))) →
        set_background (some n) bgCount s =
          ({ s with selected_bg_index := n }, SBResult.success n))
    ∧ (∀ n : Int, ¬ (n = -1 ∨ (0 ≤ n ∧ n < (bgCount : Int))) →
        set_background (some n) bgCount s = (s, SBResult.rangeError)) := by
  refine ⟨rfl, ?_, ?_⟩
  · intro n hn
    simp only [set_background]
    rw [if_pos hn]
  · intro n hn
    simp only [set_background]
    rw [if_neg hn]

/-- Witness for C5: one accepted index and one rejected index over six
backgrounds, starting from the initial state. -/
theorem set_background_spec_witness :
    set_background (some 2) 6 ⟨-1, false⟩ = (⟨2, false⟩, SBResult.success 2)
    ∧ set_background (some 9) 6 ⟨-1, false⟩ = (⟨-1, false⟩, SBResult.rangeError) :=
  ⟨(set_background_spec 6 ⟨-1, false⟩).2.1 2 (by omega),
   (set_background_spec 6 ⟨-1, false⟩).2.2 9 (by omega)⟩

/-- Each control operation preserves validity of the stored index. -/
theorem validIndex_step (bgCount : Nat) (s : AppState) (op : Op)
    (hs : validIndex bgCount s.selected_bg_index) :
    validIndex bgCount (stepOp bgCount s op).selected_bg_index := by
  cases op with
  | reset => exact Or.inl rfl
  | toggleBlur n => exact hs
  | setBg input =>
    cases input with
    | none => exact hs
    | some n =>
      simp only [stepOp, set_background]
      split
      · assumption
      · exact hs

/-- Validity of the stored index is preserved along any operation list. -/
theorem validIndex_foldl (bgCount : Nat) (ops : List Op) :
    ∀ s : AppState, validIndex bgCount s.selected_bg_index →
      validIndex bgCount ((ops.foldl (stepOp bgCount) s).selected_bg_index) := by
  induction ops with
  | nil => exact fun s hs => hs
  | cons op rest ih =>
    exact fun s hs => ih _ (validIndex_step bgCount s op hs)

/-- Claim C6: starting from the initial state (index -1, blur off), after
any sequence of reset, set_background and toggle_blur operations the stored
background index is -1 or a valid index into the background collection; no
operation ever stores an out-of-range value. -/
theorem state_invariant (bgCount : Nat) (ops : List Op) :
    validIndex bgCount ((ops.foldl (stepOp bgCount) ⟨-1, false⟩).selected_bg_index) :=
  validIndex_foldl bgCount ops ⟨-1, false⟩ (Or.inl rfl)

/-- Claim C7 (refuted by the code): cap.release() runs exactly once when the
loop exits through a capture failure or through isOpened turning false, but
zero times when the client disconnects while the generator is suspended at a
yield: GeneratorExit propagates past line 178, which is not inside a
try/finally.  The three conjuncts evaluate the release count on each exit
path. -/
theorem gen_frames_release_paths :
    gen_frames_release [] none = 1
    ∧ gen_frames_release [true, false] none = 1
    ∧ gen_frames_release [true, true] (some 1) = 0 :=
  ⟨rfl, rfl, rfl⟩

/-- Claim C8 (counterexample): a frame whose JPEG encode reports failure
through the returned flag (ret = false) is still emitted as a frame part,
and the stream does not terminate — the source never inspects the flag. -/
theorem encode_flag_failure_emitted :
    run_gen_frames [⟨some 0, Except.ok 0, Except.ok (false, [7])⟩] = ([[7]], false)
    ∧ ([[7]], false) ≠ (([] : List (List Nat)), true) :=
  ⟨rfl, by decide⟩

/-- Claim C8 (amended): a segmentation failure raised as an exception, and a
JPEG-encode failure raised as an exception, terminate the stream without
emitting a frame part for that frame; but an encode failure reported only
through imencode's boolean return flag is not detected — the returned buffer
is emitted regardless of the flag and the stream continues. -/
theorem run_gen_frames_amended :
    (∀ (img : Nat) (e : Except Unit (Bool × List Nat)) (rest : List FrameInputs),
        run_gen_frames (⟨some img, Except.error (), e⟩ :: rest) = ([], true))
    ∧ (∀ (img m : Nat) (rest : List FrameInputs),
        run_gen_frames (⟨some img, Except.ok m, Except.error ()⟩ :: rest) = ([], true))
    ∧ (∀ (img m : Nat) (ret : Bool) (buf : List Nat) (rest : List FrameInputs),
        run_gen_frames (⟨some img, Except.ok m, Except.ok (ret, buf)⟩ :: rest) =
          (buf :: (run_gen_frames rest).1, (run_gen_frames rest).2)) :=
  ⟨fun _ _ _ => rfl, fun _ _ _ => rfl, fun _ _ _ _ _ => rfl⟩

/-- Claim C9 (counterexample): a slot whose backing file exists but cannot
be decoded produces a None entry, not the placeholder: the loader never
checks cv2.imread's result. -/
theorem load_backgrounds_corrupt_entry :
    load_backgrounds (fun n => n) (fun _ => FileStatus.corrupt) 1 = [none]
    ∧ (none : Option Nat) ≠ some ((fun n : Nat => n) 1) :=
  ⟨rfl, by decide⟩

/-- Claim C9 (amended): load_backgrounds always returns exactly count
entries, in slot order; a missing file falls back to the placeholder for
its slot, a decodable file yields its decoded image, and a corrupt
(existing but undecodable) file yields a None (non-image) entry. -/
theorem load_backgrounds_amended (placeholder : Nat → Nat)
    (fs : Nat → FileStatus) (count : Nat) :
    (load_backgrounds placeholder fs count).length = count
    ∧ load_backgrounds placeholder fs count =
        (List.range' 1 count).map (fun i => loadedSlot placeholder (fs i) i) := by
  constructor
  · simp [load_backgrounds]
  · unfold load_backgrounds
    apply List.map_congr_left
    intro i _
    cases h : fs i <;> simp [fileExists, imread, loadedSlot]

end VirtualBG
